import Mathlib

/-!
# Verification of the project-modal controller and viewport trigger

Shallow embedding of `src/mixins/projectModalController.ts` and of the
viewport-animation utility described by the specification (the utility
itself, `src/lib/util.ts`, is not among the supplied sources).

State is passed explicitly: the Vue component's reactive fields become a
`ProjectModalState` record, the `projects` prop becomes a `List Project`
parameter, and each method becomes a function from old state to new state.
-/

/-- A project-like entity; the controller only ever inspects `name`
(`src/configTypes.ts` carries further display fields that the controller
treats as opaque, so they are omitted). -/
structure Project where
  name : String
deriving Repr, DecidableEq

/-- The `ProjectModalState` interface of `projectModalController.ts`:
`isActive` (modal open/closed) and `activeProjectName` (selected name). -/
structure ProjectModalState where
  isActive : Bool
  activeProjectName : String
deriving Repr, DecidableEq

/-- `data: () => ({ isActive: false, activeProjectName: '0' })` — the
component's initial state, with the literal string `'0'` as sentinel. -/
def dataInit : ProjectModalState :=
  { isActive := false, activeProjectName := "0" }

/-- Embedding of JavaScript `String.prototype.toLowerCase` as used by the
controller: per-character lowering over the string's characters (the
kernel-evaluable form of `String.toLower`). -/
def strLower (s : String) : String :=
  String.mk (s.data.map Char.toLower)

/-- `getProjectByName(name)`: `this.projects.find(project =>
project.name.toLowerCase() === name.toLowerCase())` — first entity in
collection order whose lower-cased name equals the lower-cased argument. -/
def getProjectByName (projects : List Project) (name : String) : Option Project :=
  projects.find? (fun project => strLower project.name == strLower name)

/-- The computed property `activeProject`:
`this.getProjectByName(this.activeProjectName)`. -/
def activeProject (projects : List Project) (s : ProjectModalState) : Option Project :=
  getProjectByName projects s.activeProjectName

/-- `setModalState(state)`: assigns both fields of the incoming record,
`this.isActive = state.isActive; this.activeProjectName =
state.activeProjectName`, replacing the whole state unconditionally. -/
def setModalState (_s : ProjectModalState) (state : ProjectModalState) : ProjectModalState :=
  { isActive := state.isActive, activeProjectName := state.activeProjectName }

/-- `closeModal()`: `this.isActive = false`; `activeProjectName` is left
untouched. -/
def closeModal (s : ProjectModalState) : ProjectModalState :=
  { s with isActive := false }

/-- The `created()` hook, taking the result of
`getURLParams(window.location).get('project')` as an `Option String`
(`null` becomes `none`).  The JavaScript guard
`if (linkedProject && this.getProjectByName(linkedProject))` treats both
`null` and the empty string as falsy, and an entity object / `undefined`
as truthy / falsy. -/
def created (projects : List Project) (linkedProject : Option String) : ProjectModalState :=
  match linkedProject with
  | none => dataInit
  | some lp =>
    if lp ≠ "" ∧ (getProjectByName projects lp).isSome then
      setModalState dataInit { isActive := true, activeProjectName := lp }
    else
      dataInit

/-- Modelled from the spec: `getURLParams` (in `src/lib/util.ts`, not among
the supplied sources) exposes the page's URL query parameters as a
read-only map; `get(key)` returns the first value recorded for `key`, or
null when the key is absent (standard `URLSearchParams` semantics, spec
§4.1 and §6).  The map is embedded as an association list. -/
def getParam (params : List (String × String)) (key : String) : Option String :=
  (params.find? (fun p => p.1 == key)).map (fun p => p.2)

/-- Initialization of the controller from an entity collection and the
URL query-parameter map: `created` applied to the `project` parameter. -/
def initController (projects : List Project) (params : List (String × String)) :
    ProjectModalState :=
  created projects (getParam params "project")

/-- Names of the collection are pairwise distinct under the controller's
case-insensitive comparison — the uniqueness the spec asks callers to
guarantee. -/
def ciDistinct (projects : List Project) : Prop :=
  projects.Pairwise (fun a b => strLower a.name ≠ strLower b.name)

instance (projects : List Project) : Decidable (ciDistinct projects) := by
  unfold ciDistinct; infer_instance

/-! ## Viewport animation trigger (modelled from the spec) -/

/-- A DOM-like element: its bounding rectangle's vertical edges and its
current class set. -/
structure Element where
  top : Int
  bottom : Int
  classes : List String
deriving Repr, DecidableEq

/-- Modelled from the spec: the visibility predicate of
`updateClassesIfInView` in `src/lib/util.ts` (not among the supplied
sources) — an element is in view iff its rectangle's top edge is less than
the viewport height and its bottom edge is greater than zero (spec §4.2). -/
def isInView (viewportHeight top bottom : Int) : Bool :=
  top < viewportHeight && bottom > 0

/-- Modelled from the spec: applying `{addClasses, removeClasses}` to an
element's class set — `removeClasses` are removed and `addClasses` not yet
present are appended (DOM `classList` add/remove semantics). -/
def updateClasses (e : Element) (addClasses removeClasses : List String) : Element :=
  { e with classes :=
      (e.classes.filter (fun c => !removeClasses.contains c)) ++
        addClasses.filter (fun c => !e.classes.contains c) }

/-- Modelled from the spec: `updateClassesIfInView(viewportContext,
elementRef, {addClasses, removeClasses})` from `src/lib/util.ts` (not among
the supplied sources) — no-op on a null element reference, otherwise
evaluates the visibility predicate on the element's current geometry and
mutates the class set only when the element is in view (spec §4.2).  The
function is total: no exception path exists. -/
def updateClassesIfInView (viewportHeight : Int) (el : Option Element)
    (addClasses removeClasses : List String) : Option Element :=
  match el with
  | none => none
  | some e =>
    if isInView viewportHeight e.top e.bottom then
      some (updateClasses e addClasses removeClasses)
    else
      some e

/-! ## Helper lemmas -/

/-- Under case-insensitive uniqueness, a member whose name matches the
query case-insensitively is exactly what `getProjectByName` returns. -/
theorem getProjectByName_eq_some_of_mem (ps : List Project) (e : Project) (n : String)
    (hd : ciDistinct ps) (hm : e ∈ ps) (hn : strLower e.name = strLower n) :
    getProjectByName ps n = some e := by
  unfold ciDistinct at hd
  induction ps with
  | nil => cases hm
  | cons p rest ih =>
    rcases List.pairwise_cons.mp hd with ⟨hp, hrest⟩
    rcases List.mem_cons.mp hm with he | he
    · subst he
      have h' : (strLower e.name == strLower n) = true := by simpa using hn
      unfold getProjectByName
      rw [List.find?_cons]
      simp only [h']
    · have hne : strLower p.name ≠ strLower e.name := hp e he
      have h' : (strLower p.name == strLower n) = false := by
        simp only [beq_eq_false_iff_ne, ne_eq]
        rw [← hn]
        exact hne
      unfold getProjectByName
      rw [List.find?_cons]
      simp only [h']
      exact ih hrest he

/-- `getProjectByName` returns `none` exactly when no member matches. -/
theorem getProjectByName_eq_none_iff (ps : List Project) (n : String) :
    getProjectByName ps n = none ↔ ∀ e ∈ ps, strLower e.name ≠ strLower n := by
  unfold getProjectByName
  rw [List.find?_eq_none]
  constructor
  · intro h e he
    have := h e he
    simpa using this
  · intro h e he
    simpa using h e he

/-- `getProjectByName` returns the first match in collection order. -/
theorem getProjectByName_first_match (ps : List Project) (n : String) (e : Project) :
    getProjectByName ps n = some e ↔
      ∃ l1 l2, ps = l1 ++ e :: l2 ∧ strLower e.name = strLower n ∧
        ∀ a ∈ l1, strLower a.name ≠ strLower n := by
  induction ps with
  | nil =>
    simp only [getProjectByName, List.find?_nil]
    constructor
    · intro h; cases h
    · rintro ⟨l1, l2, h, -, -⟩
      exact absurd h (List.append_ne_nil_of_right_ne_nil l1 (List.cons_ne_nil e l2)).symm
  | cons p rest ih =>
    by_cases hp : strLower p.name = strLower n
    · have h' : (strLower p.name == strLower n) = true := by simpa using hp
      unfold getProjectByName
      rw [List.find?_cons]
      simp only [h']
      constructor
      · intro h
        have hpe : p = e := by simpa using h
        subst hpe
        exact ⟨[], rest, rfl, hp, by simp⟩
      · rintro ⟨l1, l2, hsplit, hmatch, hfirst⟩
        cases l1 with
        | nil =>
          have hpe : p = e := by simpa using congrArg List.head? hsplit
          rw [hpe]
        | cons a l1' =>
          have hpa : p = a := by simpa using congrArg List.head? hsplit
          exact absurd (hpa ▸ hp) (hfirst a (List.mem_cons_self a l1'))
    · have h' : (strLower p.name == strLower n) = false := by
        simp only [beq_eq_false_iff_ne, ne_eq]
        exact hp
      unfold getProjectByName
      rw [List.find?_cons]
      simp only [h']
      rw [getProjectByName] at ih
      rw [ih]
      constructor
      · rintro ⟨l1, l2, hsplit, hmatch, hfirst⟩
        refine ⟨p :: l1, l2, by simp [hsplit], hmatch, ?_⟩
        intro a ha
        rcases List.mem_cons.mp ha with h | h
        · exact h ▸ hp
        · exact hfirst a h
      · rintro ⟨l1, l2, hsplit, hmatch, hfirst⟩
        cases l1 with
        | nil =>
          exfalso
          have hpe : p = e := by simpa using congrArg List.head? hsplit
          exact hp (hpe ▸ hmatch)
        | cons a l1' =>
          have htail : rest = l1' ++ e :: l2 := by simpa using congrArg List.tail hsplit
          refine ⟨l1', l2, htail, hmatch, ?_⟩
          intro b hb
          exact hfirst b (List.mem_cons_of_mem a hb)

/-- When the linked name is non-empty and resolves, `created` activates the
modal with the name exactly as given. -/
theorem created_some_active (ps : List Project) (v : String) (hv : v ≠ "")
    (hg : (getProjectByName ps v).isSome = true) :
    created ps (some v) = { isActive := true, activeProjectName := v } := by
  have hdef : created ps (some v) =
      if v ≠ "" ∧ (getProjectByName ps v).isSome = true then
        setModalState dataInit { isActive := true, activeProjectName := v }
      else dataInit := rfl
  rw [hdef, if_pos ⟨hv, hg⟩]
  rfl

/-- When the guard fails (empty name or no resolution), `created` keeps the
initial state. -/
theorem created_some_inactive (ps : List Project) (v : String)
    (h : ¬(v ≠ "" ∧ (getProjectByName ps v).isSome = true)) :
    created ps (some v) = dataInit := by
  have hdef : created ps (some v) =
      if v ≠ "" ∧ (getProjectByName ps v).isSome = true then
        setModalState dataInit { isActive := true, activeProjectName := v }
      else dataInit := rfl
  rw [hdef, if_neg h]

/-- **C1 counterexample.**  The claim quantifies over every query value that
case-insensitively matches some entity's `name`, and asserts activation.
With the collection `[{name: ""}]` and the query map `project ↦ ""` the
hypotheses of the claim hold (the key is present and its value matches the
entity named `""`), yet the JavaScript guard `if (linkedProject && ...)`
treats the empty string as falsy, so initialization leaves
`isActive = false` — not `true` as claimed. -/
theorem C1_counterexample :
    getParam [("project", "")] "project" = some "" ∧
    (Project.mk "") ∈ [Project.mk ""] ∧
    strLower (Project.mk "").name = strLower "" ∧
    ciDistinct [Project.mk ""] ∧
    (initController [Project.mk ""] [("project", "")]).isActive = false := by
  refine ⟨rfl, by decide, rfl, by decide, rfl⟩

/-- **C1 (amended).**  For every collection with case-insensitively unique
names and every query map whose `project` value is **non-empty** and
case-insensitively matches the name of some entity, initialization sets
`isActive = true`, sets `activeProjectName` to the query value exactly as
given, and the derived `activeProject` is the matched entity.  (The
counterexample forces the added non-emptiness condition: an empty query
value is falsy in the JavaScript guard and never activates.) -/
theorem C1_deepLink_activates (ps : List Project) (params : List (String × String))
    (v : String) (e : Project) (hd : ciDistinct ps)
    (hp : getParam params "project" = some v) (hv : v ≠ "")
    (he : e ∈ ps) (hn : strLower e.name = strLower v) :
    (initController ps params).isActive = true ∧
    (initController ps params).activeProjectName = v ∧
    activeProject ps (initController ps params) = some e := by
  have hg : getProjectByName ps v = some e :=
    getProjectByName_eq_some_of_mem ps e v hd he hn
  have hinit : initController ps params = { isActive := true, activeProjectName := v } := by
    unfold initController
    rw [hp]
    exact created_some_active ps v hv (by rw [hg]; rfl)
  rw [hinit]
  refine ⟨rfl, rfl, ?_⟩
  show getProjectByName ps v = some e
  exact hg

/-- Witness for C1: collection `[{name:"Beta"}]`, query `?project=beta`. -/
theorem C1_deepLink_activates_witness :
    (initController [Project.mk "Beta"] [("project", "beta")]).isActive = true ∧
    (initController [Project.mk "Beta"] [("project", "beta")]).activeProjectName = "beta" ∧
    activeProject [Project.mk "Beta"] (initController [Project.mk "Beta"] [("project", "beta")]) =
      some (Project.mk "Beta") :=
  C1_deepLink_activates [Project.mk "Beta"] [("project", "beta")] "beta" (Project.mk "Beta")
    (by decide) rfl (by decide) (by decide) (by decide)

/-- **C2 counterexample.**  The claim asserts the invariant over *all*
states reachable through initialization, `setModalState` (open) and
`closeModal`: whenever `isActive` is true the active name resolves.  But
`setModalState` performs no validation: opening with the unresolvable name
`"Ghost"` against the collection `[{name:"Alpha"}]` reaches a state with
`isActive = true` whose `activeProject` is `none`. -/
theorem C2_counterexample :
    (setModalState dataInit { isActive := true, activeProjectName := "Ghost" }).isActive = true ∧
    activeProject [Project.mk "Alpha"]
      (setModalState dataInit { isActive := true, activeProjectName := "Ghost" }) = none := by
  refine ⟨rfl, by decide⟩

/-- **C2 (amended).**  The invariant holds for the states produced by
initialization and by `closeModal`: after `created`, `isActive = true`
implies the active name resolves to an entity, and any state returned by
`closeModal` satisfies the invariant vacuously (`isActive = false`).
`setModalState` itself does not re-validate, so open with a non-resolving
name can violate the invariant (enforced only by convention at call
sites). -/
theorem C2_invariant_init_close (ps : List Project) (lp : Option String)
    (s : ProjectModalState) :
    ((created ps lp).isActive = true → (activeProject ps (created ps lp)).isSome = true) ∧
    ((closeModal s).isActive = true → (activeProject ps (closeModal s)).isSome = true) := by
  constructor
  · intro hact
    cases lp with
    | none => exact absurd hact (by simp [created, dataInit])
    | some v =>
      by_cases hc : v ≠ "" ∧ (getProjectByName ps v).isSome = true
      · rw [created_some_active ps v hc.1 hc.2]
        show (getProjectByName ps v).isSome = true
        exact hc.2
      · rw [created_some_inactive ps v hc] at hact
        exact absurd hact (by simp [dataInit])
  · intro hact
    exact absurd hact (by simp [closeModal])

/-- Witness for C2 (amended), at collection `[{name:"Alpha"}]`, link
`project=Alpha`, and an arbitrary open state. -/
theorem C2_invariant_init_close_witness :
    ((created [Project.mk "Alpha"] (some "Alpha")).isActive = true →
      (activeProject [Project.mk "Alpha"]
        (created [Project.mk "Alpha"] (some "Alpha"))).isSome = true) ∧
    ((closeModal { isActive := true, activeProjectName := "Alpha" }).isActive = true →
      (activeProject [Project.mk "Alpha"]
        (closeModal { isActive := true, activeProjectName := "Alpha" })).isSome = true) :=
  C2_invariant_init_close [Project.mk "Alpha"] (some "Alpha")
    { isActive := true, activeProjectName := "Alpha" }

/-- **C3.**  For every string `name` — whether or not it resolves in the
collection — opening via `setModalState { isActive := true, activeProjectName
:= name }` sets `isActive = true` and `activeProjectName = name`
unconditionally: the method assigns both fields with no re-validation of the
name against the collection. -/
theorem C3_open_unvalidated (s : ProjectModalState) (name : String) :
    (setModalState s { isActive := true, activeProjectName := name }).isActive = true ∧
    (setModalState s { isActive := true, activeProjectName := name }).activeProjectName =
      name :=
  ⟨rfl, rfl⟩

/-- **C4.**  `closeModal` sets `isActive = false` and leaves
`activeProjectName` untouched in every state; in particular after
`open("Alpha")` then `close()`, the state is inactive while the derived
`activeProject` still resolves to the entity named `"Alpha"` when such an
entity exists in the (case-insensitively unique) collection. -/
theorem C4_close_preserves_name (ps : List Project) (s s0 : ProjectModalState)
    (e : Project) (hd : ciDistinct ps) (he : e ∈ ps)
    (hn : strLower e.name = strLower "Alpha") :
    (closeModal s).isActive = false ∧
    (closeModal s).activeProjectName = s.activeProjectName ∧
    (closeModal (setModalState s0 { isActive := true, activeProjectName := "Alpha" })).isActive
      = false ∧
    activeProject ps
      (closeModal (setModalState s0 { isActive := true, activeProjectName := "Alpha" })) =
      some e := by
  refine ⟨rfl, rfl, rfl, ?_⟩
  show getProjectByName ps "Alpha" = some e
  exact getProjectByName_eq_some_of_mem ps e "Alpha" hd he hn

/-- Witness for C4: collection `[{name:"Alpha"}]`, arbitrary states. -/
theorem C4_close_preserves_name_witness :
    (closeModal { isActive := true, activeProjectName := "Beta" }).isActive = false ∧
    (closeModal { isActive := true, activeProjectName := "Beta" }).activeProjectName =
      ProjectModalState.activeProjectName { isActive := true, activeProjectName := "Beta" } ∧
    (closeModal (setModalState dataInit
      { isActive := true, activeProjectName := "Alpha" })).isActive = false ∧
    activeProject [Project.mk "Alpha"]
      (closeModal (setModalState dataInit
        { isActive := true, activeProjectName := "Alpha" })) = some (Project.mk "Alpha") :=
  C4_close_preserves_name [Project.mk "Alpha"]
    { isActive := true, activeProjectName := "Beta" } dataInit (Project.mk "Alpha")
    (by decide) (by decide) (by decide)

/-- **C5.**  If the query-parameter map lacks the key `project`, or its
`project` value resolves to no entity, initialization leaves the controller
at the initial sentinel state (`isActive = false`); the embedding is a total
function, so no error path exists — the missing match degrades to the
closed state. -/
theorem C5_no_match_stays_closed (ps : List Project) (params : List (String × String))
    (h : getParam params "project" = none ∨
      ∃ v, getParam params "project" = some v ∧ getProjectByName ps v = none) :
    initController ps params = dataInit ∧ (initController ps params).isActive = false := by
  have hinit : initController ps params = dataInit := by
    unfold initController
    rcases h with h | ⟨v, hv, hg⟩
    · rw [h]
      rfl
    · rw [hv]
      apply created_some_inactive
      intro hc
      rw [hg] at hc
      exact absurd hc.2 (by simp)
  exact ⟨hinit, by rw [hinit]; rfl⟩

/-- Witness for C5: an empty query map (key absent), and also covering the
no-match branch shape through the concrete collection `[{name:"Alpha"}]`. -/
theorem C5_no_match_stays_closed_witness :
    initController [Project.mk "Alpha"] [("project", "Gamma")] = dataInit ∧
    (initController [Project.mk "Alpha"] [("project", "Gamma")]).isActive = false :=
  C5_no_match_stays_closed [Project.mk "Alpha"] [("project", "Gamma")]
    (Or.inr ⟨"Gamma", rfl, by decide⟩)

/-- **C6.**  `getProjectByName` is case-insensitive — two query strings with
the same lower-casing yield the same result — and it returns exactly the
first entity in collection order whose name matches case-insensitively,
returning `none` precisely when no entity matches. -/
theorem C6_lookup_case_insensitive (ps : List Project) (n1 n2 n : String)
    (h12 : strLower n1 = strLower n2) :
    getProjectByName ps n1 = getProjectByName ps n2 ∧
    (∀ e, getProjectByName ps n = some e ↔
      ∃ l1 l2, ps = l1 ++ e :: l2 ∧ strLower e.name = strLower n ∧
        ∀ a ∈ l1, strLower a.name ≠ strLower n) ∧
    (getProjectByName ps n = none ↔ ∀ e ∈ ps, strLower e.name ≠ strLower n) := by
  refine ⟨?_, fun e => getProjectByName_first_match ps n e,
    getProjectByName_eq_none_iff ps n⟩
  unfold getProjectByName
  rw [h12]

/-- Witness for C6: `findByName("Foo")` and `findByName("FOO")` agree on the
collection `[{name:"foo"}]`, with the characterization instantiated at
`"foo"`. -/
theorem C6_lookup_case_insensitive_witness :
    getProjectByName [Project.mk "foo"] "Foo" = getProjectByName [Project.mk "foo"] "FOO" ∧
    (∀ e, getProjectByName [Project.mk "foo"] "foo" = some e ↔
      ∃ l1 l2, [Project.mk "foo"] = l1 ++ e :: l2 ∧ strLower e.name = strLower "foo" ∧
        ∀ a ∈ l1, strLower a.name ≠ strLower "foo") ∧
    (getProjectByName [Project.mk "foo"] "foo" = none ↔
      ∀ e ∈ [Project.mk "foo"], strLower e.name ≠ strLower "foo") :=
  C6_lookup_case_insensitive [Project.mk "foo"] "Foo" "FOO" "foo" (by decide)

/-- **C7.**  The visibility predicate holds exactly when the rectangle's top
edge is below the viewport height and its bottom edge is above zero; at
viewport height 800: `(top=700, bottom=900)` is in view, `(top=900,
bottom=1000)` is not, and `(top=-100, bottom=-10)` is not. -/
theorem C7_visibility_predicate (h top bottom : Int) :
    (isInView h top bottom = true ↔ (top < h ∧ bottom > 0)) ∧
    isInView 800 700 900 = true ∧
    isInView 800 900 1000 = false ∧
    isInView 800 (-100) (-10) = false := by
  refine ⟨?_, by decide, by decide, by decide⟩
  simp [isInView]

/-- **C8.**  With a null/absent element reference, `updateClassesIfInView`
is a total no-op: it returns immediately with no element to mutate, for
every viewport height and every pair of class lists (totality of the
embedding is the no-throw guarantee). -/
theorem C8_null_element_noop (h : Int) (addClasses removeClasses : List String) :
    updateClassesIfInView h none addClasses removeClasses = none :=
  rfl

/-- **C9.**  When the visibility predicate is false at call time,
`updateClassesIfInView` returns the element completely unchanged — in
particular its class set, including classes added by an earlier in-view
call, persists (the trigger is one-directional and never removes classes on
leaving view). -/
theorem C9_not_in_view_no_change (h : Int) (e : Element)
    (addClasses removeClasses : List String)
    (hv : isInView h e.top e.bottom = false) :
    updateClassesIfInView h (some e) addClasses removeClasses = some e := by
  simp [updateClassesIfInView, hv]

/-- Witness for C9: an element below an 800-pixel viewport, carrying classes
from an earlier reveal, stays exactly as it is. -/
theorem C9_not_in_view_no_change_witness :
    updateClassesIfInView 800 (some (Element.mk 900 1000 ["animated", "fadeInLeft"]))
      ["animated", "fadeInLeft"] ["hidden"] =
      some (Element.mk 900 1000 ["animated", "fadeInLeft"]) :=
  C9_not_in_view_no_change 800 (Element.mk 900 1000 ["animated", "fadeInLeft"])
    ["animated", "fadeInLeft"] ["hidden"] (by decide)

/-- **C10.**  The sentinel `activeProjectName` of a freshly created
controller is the literal string `"0"`, an ordinary lookup key: with no
deep link, the state stays `isActive = false` with `activeProjectName =
"0"`, yet whenever the (case-insensitively unique) collection contains an
entity whose name case-insensitively equals `"0"`, the derived
`activeProject` already resolves to that entity rather than to
not-found. -/
theorem C10_sentinel_resolves (ps : List Project) (e : Project)
    (hd : ciDistinct ps) (he : e ∈ ps) (hn : strLower e.name = strLower "0") :
    (created ps none).isActive = false ∧
    (created ps none).activeProjectName = "0" ∧
    activeProject ps (created ps none) = some e := by
  refine ⟨rfl, rfl, ?_⟩
  show getProjectByName ps "0" = some e
  exact getProjectByName_eq_some_of_mem ps e "0" hd he hn

/-- Witness for C10: the collection `[{name:"0"}]`. -/
theorem C10_sentinel_resolves_witness :
    (created [Project.mk "0"] none).isActive = false ∧
    (created [Project.mk "0"] none).activeProjectName = "0" ∧
    activeProject [Project.mk "0"] (created [Project.mk "0"] none) =
      some (Project.mk "0") :=
  C10_sentinel_resolves [Project.mk "0"] (Project.mk "0") (by decide) (by decide) (by decide)
